import Mathlib

/-!
Verification of the baudrate detection core (src/baudrate.py) against its
natural-language specification.

Shallow embedding notes.

Python 3 values matter here: `self.serial.read(1)` (pyserial) returns a
`bytes` object, while `valid_characters`, `WHITESPACE`, `PUNCTUATION` and
`VOWELS` are lists of one-character `str` objects.  In Python 3 a `bytes`
value never compares equal to a `str` value (for example `b"a" == "a"` is
`False`), so `byte in self.valid_characters` is `False` for every byte the
loop reads.  The embedding models this with an explicit Python-value type
`PyVal` carrying the runtime type tag, and Python equality `pyEq` that is
`false` across type tags, exactly as the interpreter evaluates `==` between
`bytes` and `str`.

Characters are modelled by their code points (plain naturals), so all
evaluation stays in `Nat`.

The `Detect` loop (lines 151-208) is modelled by `detectStep`, one pass of
the `while True` body, driven by an `IterInput` record holding the outside
world of that iteration: the result of `serial.read(1)`, the truth value of
the clock comparison `time.time() - start_time >= self.timeout`, and the
value of the shared flag `self.ctlc` at the end-of-iteration check.
`start_time` is tracked abstractly by `startTimeSet` (`false` is the
sentinel `start_time == 0`).  Serial-port side effects of a rate switch are
recorded as a list of `SerialAction` values.
-/

namespace BaudrateModel

/-- A Python runtime value as far as the classifier is concerned: either a
`bytes` object or a `str` object, each a sequence of code points. -/
inductive PyVal where
  | bytes (data : List Nat)
  | str (data : List Nat)
deriving DecidableEq

/-- Python `==` between the values above: equal only when both the runtime
type tag and the contents agree.  `bytes` versus `str` is always `False`
in Python 3. -/
def pyEq : PyVal → PyVal → Bool
  | PyVal.bytes a, PyVal.bytes b => a == b
  | PyVal.str a, PyVal.str b => a == b
  | _, _ => false

/-- Python `x in l` for a list `l`: membership via `pyEq`. -/
def pyIn (x : PyVal) (l : List PyVal) : Bool :=
  l.any (fun y => pyEq x y)

/-- True when the value is a `str` object. -/
def PyVal.isStr : PyVal → Bool
  | PyVal.str _ => true
  | _ => false

/-- WHITESPACE = [' ', '\t', '\r', '\n']  (line 97), one-character strings. -/
def WHITESPACE : List PyVal :=
  [PyVal.str [32], PyVal.str [9], PyVal.str [13], PyVal.str [10]]

/-- PUNCTUATION = ['.', ',', ':', ';', '?', '!']  (line 98). -/
def PUNCTUATION : List PyVal :=
  [PyVal.str [46], PyVal.str [44], PyVal.str [58], PyVal.str [59],
   PyVal.str [63], PyVal.str [33]]

/-- VOWELS = ['a', 'A', 'e', 'E', 'i', 'I', 'o', 'O', 'u', 'U']  (line 99). -/
def VOWELS : List PyVal :=
  [PyVal.str [97], PyVal.str [65], PyVal.str [101], PyVal.str [69],
   PyVal.str [105], PyVal.str [73], PyVal.str [111], PyVal.str [79],
   PyVal.str [117], PyVal.str [85]]

/-- Model of `_gen_char_list` (lines 115-117):
`[chr(x) for x in range(ord("!"), ord("~")+1)]` followed by
`extend(self.WHITESPACE)`.  `ord("!") = 33`, `ord("~") = 126`, so the
range is the 94 code points 33..126. -/
def valid_characters : List PyVal :=
  (List.range' 33 94).map (fun c => PyVal.str [c]) ++ WHITESPACE

/-- BAUDRATES (lines 56-91): the fixed catalog, a list of strings. -/
def BAUDRATES : List String :=
  ["110", "300", "600", "1200", "1800", "2400", "3600", "4800", "7200",
   "9600", "14400", "19200", "28800", "31250", "38400", "57600", "76800",
   "115200", "128000", "153600", "230400", "250000", "256000", "307200",
   "345600", "460800", "500000", "512000", "921600", "1024000", "2000000",
   "2500000", "3000000", "3686400"]

/-- Initial cursor, `self.index = len(self.BAUDRATES) - 1` (line 108). -/
def initIndex : Int := (BAUDRATES.length : Int) - 1

/-- Index arithmetic of `NextBaudrate` (lines 136-143):
`self.index += updn`, clamp to `0` when `>= len(self.BAUDRATES)` and to
`len(self.BAUDRATES) - 1` when `< 0`. -/
def nextBaudIndex (index updn : Int) : Int :=
  let i := index + updn
  if (BAUDRATES.length : Int) ≤ i then 0
  else if i < 0 then (BAUDRATES.length : Int) - 1
  else i

/-- One observable side effect on the serial channel. -/
inductive SerialAction where
  | flush
  | setBaudrate (rate : String)
deriving DecidableEq

/-- Model of `NextBaudrate` (lines 136-149): new index plus the serial actions it
performs, in order: `self.serial.flush()`, assignment of
`self.serial.baudrate = self.BAUDRATES[self.index]`, `self.serial.flush()`.
(The stderr banner write has no effect on the model state.) -/
def NextBaudrate (index updn : Int) : Int × List SerialAction :=
  let i := nextBaudIndex index updn
  (i, [SerialAction.flush, SerialAction.setBaudrate (BAUDRATES.getD i.toNat ""), SerialAction.flush])

/-- The local state of one execution of `Detect` (lines 151-208) together
with the shared cursor `self.index`.  `startTimeSet = false` models the
sentinel `start_time == 0`. -/
structure DetectState where
  count : Nat
  whitespace : Nat
  punctuation : Nat
  vowels : Nat
  startTimeSet : Bool
  timedOut : Bool
  clearCounters : Bool
  index : Int
deriving DecidableEq

/-- Initial locals of `Detect` (lines 152-158) at shared cursor `i0`. -/
def initDetectState (i0 : Int) : DetectState :=
  { count := 0, whitespace := 0, punctuation := 0, vowels := 0,
    startTimeSet := false, timedOut := false, clearCounters := false, index := i0 }

/-- The outside world of one iteration of the `while True` loop:
the result of `self.serial.read(1)` (`none` = empty read), the truth value
of `time.time() - start_time >= self.timeout` at line 187, and the value of
`self.ctlc` at the line 205 check. -/
structure IterInput where
  byteRead : Option Nat
  elapsed : Bool
  ctlc : Bool
deriving DecidableEq

/-- How one loop iteration ended: fall through to the next iteration,
break at line 186 (detection satisfied), or break at line 206 (ctlc). -/
inductive StepOutcome where
  | running (s : DetectState)
  | detected (s : DetectState)
  | cancelled (s : DetectState)
deriving DecidableEq

/-- The detection success condition of line 185:
`count >= self.threshold and whitespace > 0 and punctuation > 0 and vowels > 0`. -/
def isDetectionSatisfied (count whitespace punctuation vowels : Nat) (threshold : Int) : Bool :=
  decide (threshold ≤ (count : Int)) && decide (0 < whitespace) &&
    decide (0 < punctuation) && decide (0 < vowels)

/-- Lines 172-179: the accepted-byte branch.  Bump the matching category
counter (whitespace, else punctuation, else vowels), then `count += 1`. -/
def classifyAccept (s : DetectState) (b : Nat) : DetectState :=
  let s :=
    if pyIn (PyVal.bytes [b]) WHITESPACE then { s with whitespace := s.whitespace + 1 }
    else if pyIn (PyVal.bytes [b]) PUNCTUATION then { s with punctuation := s.punctuation + 1 }
    else if pyIn (PyVal.bytes [b]) VOWELS then { s with vowels := s.vowels + 1 }
    else s
  { s with count := s.count + 1 }

/-- Lines 192-206: the tail of every iteration.  Rate switch when
`timed_out and self.auto_detect` (lines 192-196), counter clearing when
`clear_counters` (lines 198-203), then the `self.ctlc` break check
(lines 205-206). -/
def endOfIteration (auto : Bool) (s : DetectState) (ctlc : Bool) :
    StepOutcome × List SerialAction :=
  let (s, acts) :=
    if s.timedOut && auto then
      let r := NextBaudrate s.index (-1)
      ({ s with startTimeSet := false, index := r.1, clearCounters := true,
                timedOut := false }, r.2)
    else (s, ([] : List SerialAction))
  let s :=
    if s.clearCounters then
      { s with whitespace := 0, punctuation := 0, vowels := 0, count := 0,
               clearCounters := false }
    else s
  if ctlc then (StepOutcome.cancelled s, acts) else (StepOutcome.running s, acts)

/-- One full pass of the `while True` body (lines 164-206).  Line 165-166
set `start_time` when it holds the sentinel; line 168 reads one byte;
lines 170-181 classify it (`self.auto_detect and byte in
self.valid_characters` guards the accepting branch, everything else sets
`clear_counters`); line 185 is the detection break; lines 187-190 set
`timed_out` on clock expiry or on an empty read. -/
def detectStep (auto : Bool) (threshold : Int) (s : DetectState) (inp : IterInput) :
    StepOutcome × List SerialAction :=
  let s := { s with startTimeSet := true }
  match inp.byteRead with
  | some b =>
    let s :=
      if auto && pyIn (PyVal.bytes [b]) valid_characters then classifyAccept s b
      else { s with clearCounters := true }
    if isDetectionSatisfied s.count s.whitespace s.punctuation s.vowels threshold then
      (StepOutcome.detected s, ([] : List SerialAction))
    else
      let s := if inp.elapsed then { s with timedOut := true } else s
      endOfIteration auto s inp.ctlc
  | none =>
    let s := { s with timedOut := true }
    endOfIteration auto s inp.ctlc

/-- Run the loop over a finite prefix of iteration inputs; stops at the
first break. -/
def detectRun (auto : Bool) (threshold : Int) (s : DetectState) :
    List IterInput → StepOutcome
  | [] => StepOutcome.running s
  | inp :: rest =>
    match detectStep auto threshold s inp with
    | (StepOutcome.running s2, _) => detectRun auto threshold s2 rest
    | (r, _) => r

/-- UPKEYS = ['u', 'U', 'A'], DOWNKEYS = ['d', 'D', 'B'] (lines 93-94),
as code points. -/
def UPKEYS : List Nat := [117, 85, 65]

/-- DOWNKEYS (line 94) as code points. -/
def DOWNKEYS : List Nat := [100, 68, 66]

/-- One key handled by `HandleKeypress` (lines 210-219): up key advances
the cursor by `+1`, down key by `-1`, `\x03` (code 3) sets `ctlc`; the
handler never touches the detection counters (they are locals of
`Detect`). -/
def handleKey (index : Int) (ctlc : Bool) (c : Nat) : Int × Bool × List SerialAction :=
  if c ∈ UPKEYS then
    let r := NextBaudrate index 1
    (r.1, ctlc, r.2)
  else if c ∈ DOWNKEYS then
    let r := NextBaudrate index (-1)
    (r.1, ctlc, r.2)
  else if c == 3 then (index, true, [])
  else (index, ctlc, [])

/-- Modelled from the spec: the AcceptedCharacterSet of section 3, namely
printable ASCII `0x21`-`0x7E` plus the whitespace bytes space, tab, CR,
LF.  Used only to compare the intended classifier with the code. -/
def specAcceptedCharacterSet (b : Nat) : Bool :=
  (decide (33 ≤ b) && decide (b ≤ 126)) || b == 32 || b == 9 || b == 13 || b == 10

/-- All four counters are zero. -/
def ZeroCounters (s : DetectState) : Prop :=
  s.count = 0 ∧ s.whitespace = 0 ∧ s.punctuation = 0 ∧ s.vowels = 0

/-- Mirror of BAUDRATES as numbers, for statements about rate magnitude. -/
def baudValues : List Nat :=
  [110, 300, 600, 1200, 1800, 2400, 3600, 4800, 7200, 9600, 14400, 19200,
   28800, 31250, 38400, 57600, 76800, 115200, 128000, 153600, 230400,
   250000, 256000, 307200, 345600, 460800, 500000, 512000, 921600,
   1024000, 2000000, 2500000, 3000000, 3686400]

/-- Numeric reading of a decimal digit string, for relating the string
catalog entries to `baudValues`. -/
def decimalValue (s : String) : Nat :=
  s.data.foldl (fun n c => 10 * n + (c.toNat - 48)) 0

/-- The list increases strictly from each element to the next. -/
def strictlyIncreasing : List Nat → Bool
  | [] => true
  | [_] => true
  | a :: b :: rest => decide (a < b) && strictlyIncreasing (b :: rest)

/-- One application of `advance(+1)`. -/
def advanceUp (i : Int) : Int := nextBaudIndex i 1

/-- The state of whichever way the iteration ended. -/
def outcomeState : StepOutcome → DetectState
  | StepOutcome.running s => s
  | StepOutcome.detected s => s
  | StepOutcome.cancelled s => s

/-- True for the line 186 break. -/
def isDetectedOutcome : StepOutcome → Bool
  | StepOutcome.detected _ => true
  | _ => false

/-- True for the line 206 break. -/
def isCancelledOutcome : StepOutcome → Bool
  | StepOutcome.cancelled _ => true
  | _ => false

/-- The state a timeout iteration leaves behind: counters cleared, timer
back at the sentinel, flags consumed, cursor moved one step down. -/
def switchedState (s : DetectState) : DetectState :=
  { count := 0, whitespace := 0, punctuation := 0, vowels := 0,
    startTimeSet := false, timedOut := false, clearCounters := false,
    index := nextBaudIndex s.index (-1) }

theorem BAUDRATES_length : BAUDRATES.length = 34 := rfl

theorem pyEq_bytes_str (a b : List Nat) :
    pyEq (PyVal.bytes a) (PyVal.str b) = false := rfl

theorem pyIn_bytes_of_all_str (l : List Nat) (xs : List PyVal)
    (h : xs.all PyVal.isStr = true) : pyIn (PyVal.bytes l) xs = false := by
  induction xs with
  | nil => rfl
  | cons x rest ih =>
    rw [List.all_cons, Bool.and_eq_true] at h
    cases x with
    | bytes d => simp [PyVal.isStr] at h
    | str d =>
      rw [pyIn, List.any_cons, pyEq_bytes_str, Bool.false_or]
      exact ih h.2

theorem valid_characters_all_str : valid_characters.all PyVal.isStr = true := by decide

/-- Central Python 3 fact: the value returned by `serial.read(1)` is a
`bytes` object, every element of `valid_characters` is a `str` object, so
the membership test `byte in self.valid_characters` at line 171 is always
`False`. -/
theorem pyIn_valid_characters_false (l : List Nat) :
    pyIn (PyVal.bytes l) valid_characters = false :=
  pyIn_bytes_of_all_str l _ valid_characters_all_str

theorem isDetectionSatisfied_zero (w p v : Nat) (th : Int)
    (h : w = 0 ∨ p = 0 ∨ v = 0) :
    ∀ c, isDetectionSatisfied c w p v th = false := by
  intro c
  rcases h with h | h | h <;> subst h <;> simp [isDetectionSatisfied]

theorem outcome_running_of_not_breaks (o : StepOutcome)
    (hd : isDetectedOutcome o = false) (hc : isCancelledOutcome o = false) :
    o = StepOutcome.running (outcomeState o) := by
  cases o <;> simp_all [isDetectedOutcome, isCancelledOutcome, outcomeState]

theorem outcome_cancelled_of (o : StepOutcome)
    (hc : isCancelledOutcome o = true) :
    o = StepOutcome.cancelled (outcomeState o) := by
  cases o <;> simp_all [isCancelledOutcome, outcomeState]

theorem endOfIteration_zero (auto : Bool) (s : DetectState) (ctlc : Bool)
    (hz : ZeroCounters s) :
    isDetectedOutcome (endOfIteration auto s ctlc).1 = false ∧
    isCancelledOutcome (endOfIteration auto s ctlc).1 = ctlc ∧
    ZeroCounters (outcomeState (endOfIteration auto s ctlc).1) := by
  obtain ⟨h1, h2, h3, h4⟩ := hz
  unfold endOfIteration
  cases hta : s.timedOut && auto <;> cases hcc : s.clearCounters <;> cases ctlc <;>
    simp_all [isDetectedOutcome, isCancelledOutcome, outcomeState, ZeroCounters,
      NextBaudrate]

/-- One iteration started with zero counters never breaks with detection,
breaks with cancellation exactly when `self.ctlc` is set, and the
counters it hands to the next iteration are again zero.  (With the
`bytes` versus `str` mismatch the accepting branch is dead code, so the
counters can never leave zero.) -/
theorem detectStep_zero (auto : Bool) (th : Int) (s : DetectState) (inp : IterInput)
    (hz : ZeroCounters s) :
    isDetectedOutcome (detectStep auto th s inp).1 = false ∧
    isCancelledOutcome (detectStep auto th s inp).1 = inp.ctlc ∧
    ZeroCounters (outcomeState (detectStep auto th s inp).1) := by
  obtain ⟨h1, h2, h3, h4⟩ := hz
  rcases inp with ⟨br, el, ct⟩
  cases br with
  | none =>
    exact endOfIteration_zero auto _ ct ⟨h1, h2, h3, h4⟩
  | some b =>
    simp only [detectStep, pyIn_valid_characters_false, Bool.and_false,
      Bool.false_eq_true, if_false]
    rw [isDetectionSatisfied_zero s.whitespace s.punctuation s.vowels th (Or.inl h2)]
    simp only [Bool.false_eq_true, if_false]
    cases el
    · exact endOfIteration_zero auto _ ct ⟨h1, h2, h3, h4⟩
    · exact endOfIteration_zero auto _ ct ⟨h1, h2, h3, h4⟩

/-- A run whose iterations all see `ctlc = false` never leaves the loop:
with the accepting branch dead, the counters stay zero, the detection
break can never fire, and nothing else breaks. -/
theorem detectRun_zero_no_ctlc (auto : Bool) (th : Int) (inputs : List IterInput) :
    ∀ s : DetectState, ZeroCounters s → (∀ p ∈ inputs, p.ctlc = false) →
    ∃ s2, detectRun auto th s inputs = StepOutcome.running s2 ∧ ZeroCounters s2 := by
  induction inputs with
  | nil => exact fun s hz _ => ⟨s, rfl, hz⟩
  | cons inp rest ih =>
    intro s hz hc
    obtain ⟨hd, hcan, hz2⟩ := detectStep_zero auto th s inp hz
    rw [hc inp (List.mem_cons_self inp rest)] at hcan
    rcases hstep : detectStep auto th s inp with ⟨o, acts⟩
    rw [hstep] at hd hcan hz2
    cases o with
    | running s2 =>
      simp only [outcomeState] at hz2
      obtain ⟨s3, hr, hz3⟩ := ih s2 hz2 (fun p hp => hc p (List.mem_cons_of_mem inp hp))
      exact ⟨s3, by simp only [detectRun, hstep]; exact hr, hz3⟩
    | detected s2 => simp [isDetectedOutcome] at hd
    | cancelled s2 => simp [isCancelledOutcome] at hcan

/-- Any run that starts with zero counters ends the observed prefix either
still running or cancelled, never detected, and with zero counters. -/
theorem detectRun_zero_cases (auto : Bool) (th : Int) (inputs : List IterInput) :
    ∀ s : DetectState, ZeroCounters s →
    (∃ s2, detectRun auto th s inputs = StepOutcome.running s2 ∧ ZeroCounters s2) ∨
    (∃ s2, detectRun auto th s inputs = StepOutcome.cancelled s2 ∧ ZeroCounters s2) := by
  induction inputs with
  | nil => exact fun s hz => Or.inl ⟨s, rfl, hz⟩
  | cons inp rest ih =>
    intro s hz
    obtain ⟨hd, hcan, hz2⟩ := detectStep_zero auto th s inp hz
    rcases hstep : detectStep auto th s inp with ⟨o, acts⟩
    rw [hstep] at hd hcan hz2
    cases o with
    | running s2 =>
      simp only [outcomeState] at hz2
      rcases ih s2 hz2 with ⟨s3, hr, hz3⟩ | ⟨s3, hr, hz3⟩
      · exact Or.inl ⟨s3, by simp only [detectRun, hstep]; exact hr, hz3⟩
      · exact Or.inr ⟨s3, by simp only [detectRun, hstep]; exact hr, hz3⟩
    | detected s2 => simp [isDetectedOutcome] at hd
    | cancelled s2 =>
      simp only [outcomeState] at hz2
      exact Or.inr ⟨s2, by simp only [detectRun, hstep], hz2⟩

/-- The first iteration that observes `ctlc = true` breaks the loop at
line 206, whatever inputs would have followed. -/
theorem detectRun_cancel (auto : Bool) (th : Int) (inp : IterInput)
    (post : List IterInput) (hc : inp.ctlc = true) :
    ∀ (pre : List IterInput) (s : DetectState), ZeroCounters s →
    (∀ p ∈ pre, p.ctlc = false) →
    ∃ s2, detectRun auto th s (pre ++ inp :: post) = StepOutcome.cancelled s2 := by
  intro pre
  induction pre with
  | nil =>
    intro s hz _
    obtain ⟨hd, hcan, hz2⟩ := detectStep_zero auto th s inp hz
    rw [hc] at hcan
    rcases hstep : detectStep auto th s inp with ⟨o, acts⟩
    rw [hstep] at hcan
    cases o with
    | running s2 => simp [isCancelledOutcome] at hcan
    | detected s2 => simp [isCancelledOutcome] at hcan
    | cancelled s2 =>
      exact ⟨s2, by simp only [List.nil_append, detectRun, hstep]⟩
  | cons q rest ih =>
    intro s hz hpre
    obtain ⟨hd, hcan, hz2⟩ := detectStep_zero auto th s q hz
    rw [hpre q (List.mem_cons_self q rest)] at hcan
    rcases hstep : detectStep auto th s q with ⟨o, acts⟩
    rw [hstep] at hd hcan hz2
    cases o with
    | running s2 =>
      simp only [outcomeState] at hz2
      obtain ⟨s3, hr⟩ := ih s2 hz2 (fun p hp => hpre p (List.mem_cons_of_mem q hp))
      exact ⟨s3, by simp only [List.cons_append, detectRun, hstep]; exact hr⟩
    | detected s2 => simp [isDetectedOutcome] at hd
    | cancelled s2 => simp [isCancelledOutcome] at hcan

/-- An iteration that starts from zero counters and either reads nothing
or sees the clock expired performs exactly the timeout transition of
lines 192-196: flush, set the rate one catalog step down, flush, clear
the counters, reset the timer sentinel. -/
theorem detectStep_timeout (th : Int) (s : DetectState) (inp : IterInput)
    (hz : ZeroCounters s) (ht : inp.byteRead = none ∨ inp.elapsed = true) :
    detectStep true th s inp =
      ((if inp.ctlc then StepOutcome.cancelled (switchedState s)
        else StepOutcome.running (switchedState s)),
       [SerialAction.flush,
        SerialAction.setBaudrate (BAUDRATES.getD (nextBaudIndex s.index (-1)).toNat ""),
        SerialAction.flush]) := by
  obtain ⟨h1, h2, h3, h4⟩ := hz
  rcases inp with ⟨br, el, ct⟩
  cases br with
  | none => cases ct <;> rfl
  | some b =>
    rcases ht with ht | ht
    · exact absurd ht (by simp)
    · subst ht
      simp only [detectStep, pyIn_valid_characters_false, Bool.and_false,
        Bool.false_eq_true, if_false]
      rw [isDetectionSatisfied_zero s.whitespace s.punctuation s.vowels th (Or.inl h2)]
      simp only [Bool.false_eq_true, if_false]
      cases ct <;> rfl

theorem initDetectState_zero (i0 : Int) : ZeroCounters (initDetectState i0) :=
  ⟨rfl, rfl, rfl, rfl⟩

theorem detectRun_running_zero (auto : Bool) (th : Int) (inputs : List IterInput)
    (s s2 : DetectState) (hz : ZeroCounters s)
    (h : detectRun auto th s inputs = StepOutcome.running s2) : ZeroCounters s2 := by
  rcases detectRun_zero_cases auto th inputs s hz with ⟨s3, hr, hz3⟩ | ⟨s3, hr, hz3⟩
  · rw [h] at hr
    injection hr with he
    subst he
    exact hz3
  · rw [h] at hr
    exact StepOutcome.noConfusion hr

theorem detectRun_not_detected (auto : Bool) (th : Int) (inputs : List IterInput)
    (s s2 : DetectState) (hz : ZeroCounters s) :
    detectRun auto th s inputs ≠ StepOutcome.detected s2 := by
  rcases detectRun_zero_cases auto th inputs s hz with ⟨s3, hr, _⟩ | ⟨s3, hr, _⟩ <;>
    · rw [hr]
      exact fun h => StepOutcome.noConfusion h

/-- The only source of serial actions inside an iteration is the rate
switch of lines 192-196, and that switch always schedules and performs a
counter clear before the iteration ends. -/
theorem endOfIteration_acts_ne (auto : Bool) (s : DetectState) (ctlc : Bool)
    (hne : (endOfIteration auto s ctlc).2 ≠ []) :
    isDetectedOutcome (endOfIteration auto s ctlc).1 = false ∧
    ZeroCounters (outcomeState (endOfIteration auto s ctlc).1) := by
  unfold endOfIteration at hne ⊢
  cases hta : s.timedOut && auto <;> rw [hta] at hne
  · cases ctlc <;> simp at hne
  · cases ctlc <;> simp [isDetectedOutcome, outcomeState, ZeroCounters]

theorem detectStep_acts_ne (auto : Bool) (th : Int) (s : DetectState) (inp : IterInput)
    (hne : (detectStep auto th s inp).2 ≠ []) :
    isDetectedOutcome (detectStep auto th s inp).1 = false ∧
    ZeroCounters (outcomeState (detectStep auto th s inp).1) := by
  rcases inp with ⟨br, el, ct⟩
  cases br with
  | none => exact endOfIteration_acts_ne auto _ ct hne
  | some b =>
    simp only [detectStep, pyIn_valid_characters_false, Bool.and_false,
      Bool.false_eq_true, if_false] at hne ⊢
    by_cases hdet :
        isDetectionSatisfied s.count s.whitespace s.punctuation s.vowels th = true
    · rw [if_pos hdet] at hne
      simp at hne
    · rw [if_neg hdet] at hne ⊢
      cases el
      · exact endOfIteration_acts_ne auto _ ct hne
      · exact endOfIteration_acts_ne auto _ ct hne

/-- C1.  The claim says the accepted-byte counter counts the bytes in
AcceptedCharacterSet since the last clear and only out-of-set bytes mark
a clear.  The code disagrees: the byte `b"a"` (0x61) is in the accepted
set of the spec, yet `serial.read(1)` hands `Detect` a `bytes` object
while `valid_characters` holds `str` objects, so the line 171 membership
test is `False`, the byte is treated as rejected, `count` stays `0` and
the counters are marked for clearing.  Evaluated here at that failing
input from a fresh `Detect` state: the iteration ends with every counter
still zero (and the clear consumed) instead of `count = 1`. -/
theorem C1_bytes_str_code_bug :
    specAcceptedCharacterSet 97 = true ∧
    pyIn (PyVal.bytes [97]) valid_characters = false ∧
    detectStep true 25 (initDetectState 33)
        { byteRead := some 97, elapsed := false, ctlc := false } =
      (StepOutcome.running
        { count := 0, whitespace := 0, punctuation := 0, vowels := 0,
          startTimeSet := true, timedOut := false, clearCounters := false,
          index := 33 },
       []) :=
  ⟨rfl, pyIn_valid_characters_false [97], rfl⟩

/-- C2.  In every run of `Detect` in which the shared `ctlc` flag becomes
true before the detection condition is satisfied (with the counters
pinned at zero that condition can never be satisfied first), the loop
breaks at the line 205-206 check of the first iteration that observes the
flag — whatever inputs would have followed — and the outcome is the
cancellation break, not the detection break. -/
theorem C2_cancel_terminates (auto : Bool) (th : Int) (i0 : Int)
    (pre : List IterInput) (inp : IterInput) (post : List IterInput)
    (hpre : ∀ p ∈ pre, p.ctlc = false) (hc : inp.ctlc = true) :
    ∃ s, detectRun auto th (initDetectState i0) (pre ++ inp :: post) =
      StepOutcome.cancelled s :=
  detectRun_cancel auto th inp post hc pre (initDetectState i0)
    (initDetectState_zero i0) hpre

/-- Witness for C2 at a concrete run: `ctlc` observed on the first
iteration, with a further queued input that is never consumed. -/
theorem C2_cancel_terminates_witness :
    ∃ s, detectRun true 25 (initDetectState 33)
        ([] ++ ({ byteRead := none, elapsed := false, ctlc := true } : IterInput) ::
          [{ byteRead := some 97, elapsed := false, ctlc := false }]) =
      StepOutcome.cancelled s :=
  C2_cancel_terminates true 25 33 [] _ _ (by intro p hp; simp at hp) rfl

/-- C3.  After every rate switch the four counters are zero before the
next byte is classified.  Automatic switches are the only source of
serial actions inside an iteration, and any iteration that emits them
hands zero counters to the next iteration; manual switches only happen
when `auto_detect` is off, and in that mode every reachable inter-
iteration state has zero counters (the accepting branch is unreachable). -/
theorem C3_counters_zero_after_switch (auto : Bool) (th : Int) :
    (∀ (s : DetectState) (inp : IterInput) (out : StepOutcome)
        (acts : List SerialAction),
      detectStep auto th s inp = (out, acts) → acts ≠ [] →
      (out = StepOutcome.running (outcomeState out) ∨
        out = StepOutcome.cancelled (outcomeState out)) ∧
      ZeroCounters (outcomeState out)) ∧
    (∀ (i0 : Int) (inputs : List IterInput) (s2 : DetectState),
      detectRun false th (initDetectState i0) inputs = StepOutcome.running s2 →
      ZeroCounters s2) := by
  constructor
  · intro s inp out acts h hne
    have hne2 : (detectStep auto th s inp).2 ≠ [] := by rw [h]; exact hne
    obtain ⟨hd, hz⟩ := detectStep_acts_ne auto th s inp hne2
    rw [h] at hd hz
    refine ⟨?_, hz⟩
    cases out with
    | running s2 => exact Or.inl rfl
    | detected s2 => simp [isDetectedOutcome] at hd
    | cancelled s2 => exact Or.inr rfl
  · intro i0 inputs s2 h
    exact detectRun_running_zero false th inputs _ s2 (initDetectState_zero i0) h

/-- Witness for C3: a concrete automatic timeout switch (empty read) and a
concrete manual-mode run over one classified byte, both ending with all
four counters at zero. -/
theorem C3_counters_zero_after_switch_witness :
    ZeroCounters (outcomeState (StepOutcome.running (switchedState (initDetectState 33)))) ∧
    ZeroCounters
      { count := 0, whitespace := 0, punctuation := 0, vowels := 0,
        startTimeSet := true, timedOut := false, clearCounters := false,
        index := (33 : Int) } :=
  ⟨((C3_counters_zero_after_switch true 25).1 (initDetectState 33)
      { byteRead := none, elapsed := false, ctlc := false } _ _ rfl (by decide)).2,
   (C3_counters_zero_after_switch false 25).2 33
      [{ byteRead := some 97, elapsed := false, ctlc := false }] _ rfl⟩

/-- C4.  The line 185 success condition holds iff `count` reaches the
threshold and each of the three specialized counters is positive; it is
false whenever any specialized counter is zero regardless of `count`; and
a stream of 1000 repeated letter-a bytes never satisfies detection (the
run is still inside the loop after all 1000 iterations). -/
theorem C4_detection_condition (count whitespace punctuation vowels : Nat)
    (threshold : Int) :
    (isDetectionSatisfied count whitespace punctuation vowels threshold = true ↔
      (threshold ≤ (count : Int) ∧ 0 < whitespace ∧ 0 < punctuation ∧ 0 < vowels)) ∧
    ((whitespace = 0 ∨ punctuation = 0 ∨ vowels = 0) →
      isDetectionSatisfied count whitespace punctuation vowels threshold = false) ∧
    (∀ i0 : Int, ∃ s, detectRun true threshold (initDetectState i0)
        (List.replicate 1000 { byteRead := some 97, elapsed := false, ctlc := false }) =
      StepOutcome.running s) := by
  refine ⟨?_, ?_, ?_⟩
  · simp [isDetectionSatisfied, and_assoc]
  · exact fun h => isDetectionSatisfied_zero _ _ _ threshold h count
  · intro i0
    obtain ⟨s2, hr, _⟩ := detectRun_zero_no_ctlc true threshold
      (List.replicate 1000 { byteRead := some 97, elapsed := false, ctlc := false })
      (initDetectState i0) (initDetectState_zero i0)
      (fun p hp => by rw [List.eq_of_mem_replicate hp])
    exact ⟨s2, hr⟩

/-- Witness for C4: 1000 vowels with no whitespace fail the condition, and
the concrete 1000-byte letter-a run from the initial cursor stays in the
loop. -/
theorem C4_detection_condition_witness :
    isDetectionSatisfied 1000 0 0 0 25 = false ∧
    ∃ s, detectRun true 25 (initDetectState 33)
        (List.replicate 1000 { byteRead := some 97, elapsed := false, ctlc := false }) =
      StepOutcome.running s :=
  ⟨(C4_detection_condition 1000 0 0 0 25).2.1 (Or.inl rfl),
   (C4_detection_condition 1000 0 0 0 25).2.2 33⟩

/-- C5.  From any state `Detect` can reach in automatic mode, an iteration
whose read returns nothing or whose clock comparison has expired performs
the full timeout transition: `start_time` back to the unset sentinel, the
cursor moved exactly one step with `advance(-1)`, the serial actions
flush / set new rate / flush in that order, and the counters cleared. -/
theorem C5_timeout_switch (th : Int) (i0 : Int) (inputs : List IterInput)
    (s : DetectState) (inp : IterInput)
    (hreach : detectRun true th (initDetectState i0) inputs = StepOutcome.running s)
    (ht : inp.byteRead = none ∨ inp.elapsed = true) :
    detectStep true th s inp =
      ((if inp.ctlc then StepOutcome.cancelled (switchedState s)
        else StepOutcome.running (switchedState s)),
       [SerialAction.flush,
        SerialAction.setBaudrate (BAUDRATES.getD (nextBaudIndex s.index (-1)).toNat ""),
        SerialAction.flush]) ∧
    (switchedState s).startTimeSet = false ∧
    (switchedState s).index = nextBaudIndex s.index (-1) ∧
    ZeroCounters (switchedState s) :=
  ⟨detectStep_timeout th s inp
      (detectRun_running_zero true th inputs _ s (initDetectState_zero i0) hreach) ht,
   rfl, rfl, ⟨rfl, rfl, rfl, rfl⟩⟩

/-- Witness for C5: the empty-read timeout on the very first iteration at
the initial cursor, concretely: flush, set rate "3000000" (one catalog
step down from "3686400"), flush. -/
theorem C5_timeout_switch_witness :
    detectStep true 25 (initDetectState 33)
        { byteRead := none, elapsed := false, ctlc := false } =
      (StepOutcome.running (switchedState (initDetectState 33)),
       [SerialAction.flush, SerialAction.setBaudrate "3000000", SerialAction.flush]) ∧
    (switchedState (initDetectState 33)).index = 32 := by
  have h := C5_timeout_switch 25 33 [] (initDetectState 33)
    { byteRead := none, elapsed := false, ctlc := false } rfl (Or.inl rfl)
  exact ⟨h.1, by decide⟩

set_option maxRecDepth 8000 in
/-- C6.  At every valid cursor position a single `advance` step wraps
around at both ends (past the last index to 0, before 0 to length-1,
captured by the modulus formulas), and 34 consecutive `advance(+1)` steps
return the cursor to where it started. -/
theorem C6_advance_wraparound (i : Int) (h0 : 0 ≤ i) (h1 : i < 34) :
    nextBaudIndex i 1 = (i + 1) % 34 ∧
    nextBaudIndex i (-1) = (i + 33) % 34 ∧
    advanceUp^[34] i = i := by
  refine ⟨?_, ?_, ?_⟩
  · simp only [nextBaudIndex, BAUDRATES_length, Nat.cast_ofNat]
    split <;> (try split) <;> omega
  · simp only [nextBaudIndex, BAUDRATES_length, Nat.cast_ofNat]
    split <;> (try split) <;> omega
  · interval_cases i <;> decide

/-- Witness for C6 at the wrap position 33: one step up wraps to 0, one
step down goes to 32, and 34 upward steps come back to 33. -/
theorem C6_advance_wraparound_witness :
    nextBaudIndex 33 1 = (33 + 1) % 34 ∧
    nextBaudIndex 33 (-1) = (33 + 33) % 34 ∧
    advanceUp^[34] 33 = 33 :=
  C6_advance_wraparound 33 (by decide) (by decide)

/-- C7.  Automatic mode has no exhaustion exit: a run of `Detect` over any
finite input prefix on which `ctlc` is never observed true is still
inside the loop afterwards — cycling past every catalog rate does not
terminate it. -/
theorem C7_no_exhaustion_exit (th : Int) (i0 : Int) (inputs : List IterInput)
    (hc : ∀ p ∈ inputs, p.ctlc = false) :
    ∃ s, detectRun true th (initDetectState i0) inputs = StepOutcome.running s := by
  obtain ⟨s2, hr, _⟩ := detectRun_zero_no_ctlc true th inputs (initDetectState i0)
    (initDetectState_zero i0) hc
  exact ⟨s2, hr⟩

/-- Witness for C7: 40 consecutive empty-read timeouts — more than the 34
catalog entries, so the cursor has cycled through every rate — and the
loop is still running. -/
theorem C7_no_exhaustion_exit_witness :
    ∃ s, detectRun true 25 (initDetectState 33)
        (List.replicate 40 { byteRead := none, elapsed := false, ctlc := false }) =
      StepOutcome.running s :=
  C7_no_exhaustion_exit 25 33 _ (fun p hp => by rw [List.eq_of_mem_replicate hp])

/-- C8.  The cursor is a valid index after construction
(`len(BAUDRATES) - 1`) and stays in `[0, 34)` after `NextBaudrate` with
any integer delta, and the rate list is non-empty (it is a fixed class
constant, never resized). -/
theorem C8_cursor_in_range :
    (∀ i d : Int, 0 ≤ i → i < (BAUDRATES.length : Int) →
      0 ≤ nextBaudIndex i d ∧ nextBaudIndex i d < (BAUDRATES.length : Int)) ∧
    initIndex = (BAUDRATES.length : Int) - 1 ∧
    0 ≤ initIndex ∧ initIndex < (BAUDRATES.length : Int) ∧
    BAUDRATES ≠ [] := by
  refine ⟨?_, rfl, by decide, by decide, by decide⟩
  intro i d h0 h1
  simp only [nextBaudIndex, BAUDRATES_length, Nat.cast_ofNat] at h1 ⊢
  constructor <;> (split <;> (try split) <;> omega)

/-- Witness for C8 at a concrete in-range cursor and a large delta. -/
theorem C8_cursor_in_range_witness :
    0 ≤ nextBaudIndex 5 100 ∧ nextBaudIndex 5 100 < (BAUDRATES.length : Int) :=
  C8_cursor_in_range.1 5 100 (by decide) (by decide)

/-- C9.  The catalog has 34 entries, construction puts the cursor on the
last one, `Open` applies `NextBaudrate(0)` which keeps the cursor there
and pushes "3686400" — the numerically largest rate of the catalog, which
is strictly increasing — and every `advance(-1)` from a positive cursor
moves one index (hence one rate) down. -/
theorem C9_initial_rate_highest :
    BAUDRATES.length = 34 ∧
    initIndex = 33 ∧
    nextBaudIndex initIndex 0 = initIndex ∧
    BAUDRATES.getD initIndex.toNat "" = "3686400" ∧
    (NextBaudrate initIndex 0).2 =
      [SerialAction.flush, SerialAction.setBaudrate "3686400", SerialAction.flush] ∧
    BAUDRATES.map decimalValue = baudValues ∧
    strictlyIncreasing baudValues = true ∧
    (∀ n ∈ baudValues, n ≤ 3686400) ∧
    (∀ i : Int, 0 < i → i < 34 → nextBaudIndex i (-1) = i - 1) := by
  refine ⟨rfl, rfl, rfl, rfl, rfl, rfl, by decide, by decide, ?_⟩
  intro i h0 h1
  simp only [nextBaudIndex, BAUDRATES_length, Nat.cast_ofNat]
  split <;> (try split) <;> omega

/-- Witness for C9: one automatic switch from the initial cursor lands on
index 32, the rate "3000000", numerically below 3686400. -/
theorem C9_initial_rate_highest_witness :
    nextBaudIndex 33 (-1) = 33 - 1 ∧ (3000000 : Nat) ≤ 3686400 :=
  ⟨C9_initial_rate_highest.2.2.2.2.2.2.2.2 33 (by decide) (by decide), by decide⟩

/-- C10.  With automatic mode disabled the guard of line 171 is false for
every byte, so every received byte takes the counter-clearing branch, the
accepted-byte counter never leaves zero, the detection break is
unreachable, and the loop can only be left through the cancellation
flag. -/
theorem C10_manual_mode_no_detection (th : Int) (i0 : Int)
    (inputs : List IterInput) (s : DetectState) :
    detectRun false th (initDetectState i0) inputs ≠ StepOutcome.detected s ∧
    (detectRun false th (initDetectState i0) inputs = StepOutcome.running s →
      ZeroCounters s) :=
  ⟨detectRun_not_detected false th inputs _ s (initDetectState_zero i0),
   fun h => detectRun_running_zero false th inputs _ s (initDetectState_zero i0) h⟩

/-- Witness for C10: a concrete manual-mode run over one printable byte
ends still running with zero counters, not detected. -/
theorem C10_manual_mode_no_detection_witness :
    detectRun false 25 (initDetectState 33)
        [{ byteRead := some 97, elapsed := false, ctlc := false }] ≠
      StepOutcome.detected (initDetectState 33) ∧
    ZeroCounters
      { count := 0, whitespace := 0, punctuation := 0, vowels := 0,
        startTimeSet := true, timedOut := false, clearCounters := false,
        index := (33 : Int) } :=
  ⟨(C10_manual_mode_no_detection 25 33
      [{ byteRead := some 97, elapsed := false, ctlc := false }] (initDetectState 33)).1,
   (C10_manual_mode_no_detection 25 33
      [{ byteRead := some 97, elapsed := false, ctlc := false }] _).2 rfl⟩

end BaudrateModel
